import Mathlib

/-!
Shallow embedding of the core of `prometheus-givenergy`
(`src/prometheus_givenergy/prometheus.py` and `src/prometheus_givenergy/register.py`):
the GivEnergy request/response wire codec (including the CRC-16/MODBUS checksum
of requests), the register-definition tables, and the register-to-metric
conversion engine.  Bytes are modelled as `Nat` values below 256, byte strings
as `List Nat`, Python numbers as `ℚ` (exact rationals; the only divisions the
code performs are by the scale divisors 1, 10, 100, 1000 and by 10000, so the
float results are represented exactly), and Python exceptions
(`KeyError`, `RuntimeError`, `UnicodeDecodeError`, `TypeError`, `OverflowError`)
as an explicit error type threaded through `Except`.
-/

set_option maxRecDepth 8000

namespace GivEnergy

/-- `register.py` `class Encoding(Enum)`: encoding of the data a register
represents; always big-endian. -/
inductive Encoding
  | BOOL
  | BITFIELD
  | HEX
  | UINT8
  | DUINT8
  | UINT16
  | INT16
  | UINT32_HIGH
  | UINT32_LOW
  | ASCII
  | TIME
  | POWER_FACTOR
  deriving DecidableEq, Repr

/-- `register.py` `class Unit(str, Enum)`: measurement unit for a register
value.  The Python enum values are strings; `MetricUnit.value` below recovers
them. -/
inductive MetricUnit
  | SCALAR
  | ENERGY_KWH
  | POWER_W
  | POWER_KW
  | POWER_VA
  | FREQUENCY_HZ
  | VOLTAGE_V
  | CURRENT_A
  | TEMPERATURE_C
  | CHARGE_AH
  | TIME_S
  | TIME_M
  deriving DecidableEq, Repr

/-- The string value of each `Unit` enum member (`register.py` lines 19-30). -/
def MetricUnit.value : MetricUnit → String
  | .SCALAR => ""
  | .ENERGY_KWH => "kwh"
  | .POWER_W => "w"
  | .POWER_KW => "kw"
  | .POWER_VA => "va"
  | .FREQUENCY_HZ => "hz"
  | .VOLTAGE_V => "volts"
  | .CURRENT_A => "amps"
  | .TEMPERATURE_C => "temp_c"
  | .CHARGE_AH => "ah"
  | .TIME_S => "sec"
  | .TIME_M => "min"

/-- `register.py` `class Scaling(int, Enum)`: the scale divisor applied to a
register value.  The Python enum is int-valued; we embed the members as their
integer values. -/
def Scaling.UNIT : ℕ := 1
def Scaling.DECI : ℕ := 10
def Scaling.CENTI : ℕ := 100
def Scaling.MILLI : ℕ := 1000

/-- The `more` entry of a register definition dict: an `int` companion address
for `UINT32_HIGH` entries, a `list` of companion addresses for `ASCII`
entries. -/
inductive MoreField
  | addr (a : ℕ)
  | addrs (l : List ℕ)
  deriving DecidableEq, Repr

/-- One entry of a `register_definition` dict in `register.py`.  Every key that
may or may not be present in the Python dict becomes an `Option` field;
`rd.get(key, default)` is modelled with `Option.getD`. -/
structure RegDef where
  cont : Option String := none
  unknown : Option String := none
  name : Option String := none
  name2 : Option String := none
  type : Option Encoding := none
  scaling : Option ℕ := none
  unit : Option MetricUnit := none
  more : Option MoreField := none
  write_safe : Option Bool := none
  prometheus : Option String := none
  true_value : Option ℕ := none
  deriving DecidableEq, Repr

/-- The value carried by a `Metric`: a Python number (int or float, both exact
here) or a string (produced by the `HEX` and `ASCII` encodings). -/
inductive MetricValue
  | num (q : ℚ)
  | str (s : String)
  deriving DecidableEq, Repr

/-- `register.py` `class Metric`: `unit` stores `unit.value` (a string), as the
constructor does. -/
structure Metric where
  name : String
  value : MetricValue
  unit : String
  prom_type : String
  deriving DecidableEq, Repr

/-- The Python exceptions that can escape
`ModbusRegisterConversion.metric`, distinguished by raise site. -/
inductive RegErr
  /-- `KeyError` from `self.register_definition[register]`: no table entry. -/
  | tableKeyError (a : ℕ)
  /-- `KeyError` from `rd['name']`: entry has no `name` key. -/
  | missingName (a : ℕ)
  /-- `KeyError` from `rd['name2']` in the `DUINT8` branch. -/
  | missingName2 (a : ℕ)
  /-- `KeyError` from `register_store[...]`: address absent from the store. -/
  | storeKeyError (a : ℕ)
  /-- `RuntimeError` raised in the `BOOL` branch for a value outside
  `(0, true_value)`. -/
  | boolBadValue (a v : ℕ)
  /-- `RuntimeError`: `UINT32_HIGH` with `more is None`. -/
  | u32MissingMore (a : ℕ)
  /-- `RuntimeError`: `UINT32_HIGH` whose `more` differs from `register+1`
  (this includes a `more` that is a list, which compares unequal to an int). -/
  | u32MismatchMore (a : ℕ)
  /-- `RuntimeError`: `UINT32_LOW` used as a primary encoding. -/
  | u32LowPrimary (a : ℕ)
  /-- `TypeError` in the `ASCII` branch: `[register] + more` needs `more` to be
  a list. -/
  | asciiTypeError (a : ℕ)
  /-- `OverflowError` from `int.to_bytes(2, 'big')` on a value ≥ 2^16. -/
  | asciiOverflow (a v : ℕ)
  /-- `UnicodeDecodeError` from `.decode("ascii")` on a byte ≥ 0x80. -/
  | asciiNonAscii (a v : ℕ)
  /-- `RuntimeError`: any other encoding kind. -/
  | unsupported (a : ℕ)
  deriving DecidableEq, Repr

/-- Python `f'{v:04x}'`: lowercase hex, zero-padded on the left to at least
four digits. -/
def hex04 (v : ℕ) : String :=
  let ds := Nat.toDigits 16 v
  String.mk (List.replicate (4 - ds.length) '0' ++ ds)

/-- Python `struct.unpack('h', struct.pack('H', v))[0]`: reinterpret a 16-bit
unsigned value as two's-complement signed. -/
def toInt16 (v : ℕ) : ℤ :=
  if v < 0x8000 then (v : ℤ) else (v : ℤ) - 0x10000

/-- `ModbusRegisterConversion._scaleValue`: true division by the scale
divisor. -/
def scaleValue (v : ℚ) (scale : ℕ) : ℚ := v / (scale : ℚ)

/-- The `ASCII` branch's loop body for one address `part`:
`register_store[part].to_bytes(2, byteorder='big').decode(encoding='ascii')`.
Returns the decoded 2-character string (which the Python code then discards),
or the exception it raises. -/
def asciiPart (a : ℕ) (store : ℕ → Option ℕ) (part : ℕ) : Except RegErr String :=
  match store part with
  | none => .error (.storeKeyError part)
  | some w =>
    if w < 0x10000 then
      if w / 256 < 0x80 ∧ w % 256 < 0x80 then
        .ok (String.mk [Char.ofNat (w / 256), Char.ofNat (w % 256)])
      else
        .error (.asciiNonAscii a w)
    else
      .error (.asciiOverflow a w)

/-- Run `asciiPart` over a list of addresses, stopping at the first exception.
The Python loop ignores the decoded strings; they are returned here so that
the discarding in `metricDef` is visible. -/
def asciiParts (a : ℕ) (store : ℕ → Option ℕ) : List ℕ → Except RegErr (List String)
  | [] => .ok []
  | p :: ps => do
    let s ← asciiPart a store p
    let rest ← asciiParts a store ps
    .ok (s :: rest)

/-- `ModbusRegisterConversion.metric(self, register, register_store)` after the
table lookup: `rd` is the entry found for `register`, `store` gives
`register_store[...]` (`none` modelling `KeyError`).  Faithful to
`register.py` lines 67-146. -/
def metricDef (rd : RegDef) (register : ℕ) (store : ℕ → Option ℕ) :
    Except RegErr (List Metric) :=
  -- `if 'cont' in rd or 'unknown' in rd: return []`
  if rd.cont.isSome ∨ rd.unknown.isSome then .ok []
  else
    match rd.name with
    | none => .error (.missingName register)
    | some name =>
      -- the Python locals `rtype`, `scale`, `unit`, `more`, `prom_type` and
      -- `true_value` are `rd.get(...)` aliases, written inline here:
      -- rtype = rd.type.getD UINT16, scale = rd.scaling.getD UNIT,
      -- unit = rd.unit.getD SCALAR, prom_type = rd.prometheus.getD "guage",
      -- true_value = rd.true_value.getD 1.
      match store register with
      | none => .error (.storeKeyError register)
      | some v =>
        match rd.type.getD Encoding.UINT16 with
        | .BOOL =>
          if v = 0 ∨ v = rd.true_value.getD 1 then
            .ok [⟨name, .num (if v = rd.true_value.getD 1 then 1 else (v : ℚ)),
                  (rd.unit.getD MetricUnit.SCALAR).value, rd.prometheus.getD "guage"⟩]
          else
            .error (.boolBadValue register v)
        | .BITFIELD =>
          .ok [⟨name, .num v, (rd.unit.getD MetricUnit.SCALAR).value,
                rd.prometheus.getD "guage"⟩]
        | .HEX =>
          .ok [⟨name, .str (hex04 v), (rd.unit.getD MetricUnit.SCALAR).value,
                rd.prometheus.getD "guage"⟩]
        | .UINT8 =>
          .ok [⟨name, .num (scaleValue v (rd.scaling.getD Scaling.UNIT)),
                (rd.unit.getD MetricUnit.SCALAR).value, rd.prometheus.getD "guage"⟩]
        | .DUINT8 =>
          match rd.name2 with
          | none => .error (.missingName2 register)
          | some name2 =>
            .ok [⟨name, .num (v / 256 : ℕ), (rd.unit.getD MetricUnit.SCALAR).value,
                  rd.prometheus.getD "guage"⟩,
                 ⟨name2, .num (v % 256 : ℕ), (rd.unit.getD MetricUnit.SCALAR).value,
                  rd.prometheus.getD "guage"⟩]
        | .UINT16 =>
          .ok [⟨name, .num (scaleValue v (rd.scaling.getD Scaling.UNIT)),
                (rd.unit.getD MetricUnit.SCALAR).value, rd.prometheus.getD "guage"⟩]
        | .INT16 =>
          .ok [⟨name, .num (scaleValue (toInt16 v) (rd.scaling.getD Scaling.UNIT)),
                (rd.unit.getD MetricUnit.SCALAR).value, rd.prometheus.getD "guage"⟩]
        | .UINT32_HIGH =>
          match rd.more with
          | none => .error (.u32MissingMore register)
          | some (.addrs _) => .error (.u32MismatchMore register)
          | some (.addr m) =>
            if m ≠ register + 1 then .error (.u32MismatchMore register)
            else
              match store m with
              | none => .error (.storeKeyError m)
              | some w =>
                .ok [⟨name, .num (scaleValue (v <<< 16 ||| w) (rd.scaling.getD Scaling.UNIT)),
                      (rd.unit.getD MetricUnit.SCALAR).value, rd.prometheus.getD "guage"⟩]
        | .UINT32_LOW => .error (.u32LowPrimary register)
        | .ASCII =>
          match rd.more with
          | none => .error (.asciiTypeError register)
          | some (.addr _) => .error (.asciiTypeError register)
          | some (.addrs parts) =>
            -- `v = []` then a loop whose decoded strings are never appended,
            -- then `v = ''.join(v)`: the joined string is always empty.
            match asciiParts register store (register :: parts) with
            | .error e => .error e
            | .ok _discarded =>
              .ok [⟨name, .str (String.join []), (rd.unit.getD MetricUnit.SCALAR).value,
                    rd.prometheus.getD "guage"⟩]
        | .TIME =>
          .ok [⟨name, .num v, (rd.unit.getD MetricUnit.SCALAR).value,
                rd.prometheus.getD "guage"⟩]
        | .POWER_FACTOR =>
          .ok [⟨name, .num (((v : ℚ) - 10000) / 10000),
                (rd.unit.getD MetricUnit.SCALAR).value, rd.prometheus.getD "guage"⟩]

/-- Association-list lookup modelling `register_definition[register]` on the
table's entry list. -/
def lookupRD (table : List (ℕ × RegDef)) (a : ℕ) : Option RegDef :=
  (table.find? (fun p => p.1 = a)).map (·.2)

/-- `ModbusRegisterConversion.metric` including the
`self.register_definition[register]` lookup (a `KeyError` when absent). -/
def metricAt (table : List (ℕ × RegDef)) (register : ℕ) (store : ℕ → Option ℕ) :
    Except RegErr (List Metric) :=
  match lookupRD table register with
  | none => .error (.tableKeyError register)
  | some rd => metricDef rd register store

/-! ## Wire codec (`prometheus.py`) -/

/-- One shift-and-conditionally-xor step of CRC-16/MODBUS (the `crccheck`
library's `CrcModbus`, called at `prometheus.py` line 146): reflected
polynomial 0xA001. -/
def crcStep (crc : ℕ) : ℕ :=
  if crc % 2 = 1 then (crc / 2) ^^^ 0xA001 else crc / 2

/-- Fold one byte into the CRC register: xor it in, then run eight
`crcStep`s. -/
def crcByte (crc b : ℕ) : ℕ := crcStep^[8] (crc ^^^ b)

/-- CRC-16/MODBUS of a byte string: initial register 0xFFFF, bytes folded in
order, no final xor. -/
def crc16 (bytes : List ℕ) : ℕ := bytes.foldl crcByte 0xFFFF

/-- `struct.pack('>H', v)` / `BinaryPayloadBuilder.add_16bit_uint`: big-endian
16-bit.  (The Python pack raises for `v ≥ 2^16`; every call site is bounded by
the constructor's asserts, and the CRC register stays below 2^16.) -/
def be16 (v : ℕ) : List ℕ := [v / 256 % 256, v % 256]

/-- `BinaryPayloadBuilder.add_64bit_uint`: big-endian 64-bit. -/
def be64 (v : ℕ) : List ℕ :=
  [v / 256 ^ 7 % 256, v / 256 ^ 6 % 256, v / 256 ^ 5 % 256, v / 256 ^ 4 % 256,
   v / 256 ^ 3 % 256, v / 256 ^ 2 % 256, v / 256 % 256, v % 256]

/-- `GivEnergyRequest.data_adapter_serial_number = 'AB1234G567'` as its ten
ASCII bytes. -/
def adapterSerialBytes : List ℕ := [65, 66, 49, 50, 51, 52, 71, 53, 54, 55]

/-- The five bytes the CRC is computed over (`prometheus.py` lines 137-143):
function code, base register, register count, all big-endian. -/
def crcInputBytes (function_code base_register register_count : ℕ) : List ℕ :=
  function_code % 256 :: (be16 base_register ++ be16 register_count)

/-- The inner request payload built at `prometheus.py` lines 149-160: serial,
64-bit padding constant 8, slave address 0x32, function code, base register,
register count, CRC. -/
def encodePayload (function_code base_register register_count : ℕ) : List ℕ :=
  adapterSerialBytes ++ be64 0x00000008 ++ [0x32, function_code % 256] ++
    be16 base_register ++ be16 register_count ++
    be16 (crc16 (crcInputBytes function_code base_register register_count))

/-- `struct.pack('>HHHBB', tid, pid, length, uid, fid)`. -/
def packHeader (tid pid length uid fid : ℕ) : List ℕ :=
  be16 tid ++ be16 pid ++ be16 length ++ [uid % 256, fid % 256]

/-- `GivEnergyRequest.encode`: the 8-byte frame header (transaction id 0x5959,
protocol id 1, length = payload length + 2, unit id 1, function id 2) followed
by the payload. -/
def encode (function_code base_register register_count : ℕ) : List ℕ :=
  let msg := encodePayload function_code base_register register_count
  packHeader 0x5959 0x0001 (msg.length + 2) 0x01 0x02 ++ msg

/-- The validity conditions asserted by `GivEnergyRequest.__init__`. -/
def ValidRequest (function_code base_register register_count : ℕ) : Prop :=
  (function_code = 3 ∨ function_code = 4) ∧
    base_register ≤ 255 ∧
    1 ≤ register_count ∧ register_count ≤ 255 - base_register

instance (fc br rc : ℕ) : Decidable (ValidRequest fc br rc) := by
  unfold ValidRequest; infer_instance

/-- `struct.unpack('>HHHBB', header)`: requires exactly 8 bytes
(`struct.error` otherwise), splits them big-endian. -/
def unpackHeader (bs : List ℕ) : Option (ℕ × ℕ × ℕ × ℕ × ℕ) :=
  match bs with
  | [a, b, c, d, e, f, g, h] => some (a * 256 + b, c * 256 + d, e * 256 + f, g, h)
  | _ => none

/-! ### Response payload decoding (`GivEnergyResponse.__init__`) -/

/-- Big-endian value of a byte string. -/
def beVal (bs : List ℕ) : ℕ := bs.foldl (fun a b => a * 256 + b) 0

/-- `BinaryPayloadDecoder.decode_string(n)` followed by `.decode("ascii")`:
takes the next `n` bytes (silently short if the payload runs out, as the
library slices without checking) and fails with `UnicodeDecodeError` when a
byte is ≥ 0x80. -/
def decodeAsciiString (n : ℕ) (l : List ℕ) : Option (String × List ℕ) :=
  let bs := l.take n
  if bs.all (· < 0x80) then
    some (String.mk (bs.map Char.ofNat), l.drop n)
  else
    none

/-- A numeric `BinaryPayloadDecoder.decode_*` read of `n` bytes, big-endian:
`struct.unpack` fails when fewer than `n` bytes remain. -/
def decodeUInt (n : ℕ) (l : List ℕ) : Option (ℕ × List ℕ) :=
  if n ≤ l.length then some (beVal (l.take n), l.drop n) else none

/-- The register-reading loop of `GivEnergyResponse.__init__` (lines 192-194):
reads `count` 16-bit values for addresses `base, base+1, ...`. -/
def decodeRegisters (base : ℕ) : ℕ → List ℕ → Option (List (ℕ × ℕ) × List ℕ)
  | 0, l => some ([], l)
  | count + 1, l => do
    let (v, l) ← decodeUInt 2 l
    let (rest, l) ← decodeRegisters (base + 1) count l
    some ((base, v) :: rest, l)

/-- The decoded `GivEnergyResponse` fields. -/
structure GivEnergyResponse where
  data_adapter_serial_number : String
  padding : ℕ
  slave_address : ℕ
  function_code : ℕ
  error : Bool
  inverter_serial_number : String
  base_register : ℕ
  register_count : ℕ
  registers : List (ℕ × ℕ)
  check : ℕ
  deriving DecidableEq, Repr

/-- `GivEnergyResponse.__init__(payload)` (`prometheus.py` lines 172-196):
sequentially decodes the adapter serial, padding, slave address, function code
(high bit = error flag, masked off), inverter serial, base register, register
count, the registers themselves only when the error flag is clear, and finally
the 16-bit check field.  `none` models any exception escaping the
constructor. -/
def decodePayload (payload : List ℕ) : Option GivEnergyResponse := do
  let (serial, l) ← decodeAsciiString 10 payload
  let (padding, l) ← decodeUInt 8 l
  let (slave, l) ← decodeUInt 1 l
  let (fcRaw, l) ← decodeUInt 1 l
  let error : Bool := decide (0x80 ≤ fcRaw)
  let fc := if error then fcRaw &&& 0x7F else fcRaw
  let (inverterSerial, l) ← decodeAsciiString 10 l
  let (base, l) ← decodeUInt 2 l
  let (count, l) ← decodeUInt 2 l
  let (registers, l) ←
    if error then some ([], l) else decodeRegisters base count l
  let (check, _) ← decodeUInt 2 l
  some ⟨serial, padding, slave, fc, error, inverterSerial, base, count, registers, check⟩

/-- `GivEnergyResponse.register` / `__getitem__`: dict lookup in
`self._register` (`none` models `KeyError`). -/
def GivEnergyResponse.register (r : GivEnergyResponse) (reg : ℕ) : Option ℕ :=
  (r.registers.find? (fun p => p.1 = reg)).map (·.2)

/-! ### The payload receive loop (`PrometheusGivEnergy._transaction`) -/

/-- The state of the stream as the receive loop sees it: the chunks that
`s.recv` will deliver, in order.  Once the list is exhausted the peer has
closed the connection and every further `recv` returns the empty byte
string. -/
def recvChunk (chunks : List (List ℕ)) (n : ℕ) : List ℕ × List (List ℕ) :=
  match chunks with
  | [] => ([], [])
  | c :: rest => (c.take n, rest)

/-- The accumulation loop of `_transaction` (`prometheus.py` lines 62-64):
`while len(payload) < size: payload += s.recv(size - len(payload))`, run with
`fuel` iterations.  `none` means the loop was still running when the fuel ran
out; no constructor of this function raises, mirroring the loop body, which
contains no exception-raising operation on a closed (EOF) stream — `recv`
simply returns `b''`. -/
def recvLoop (fuel : ℕ) (chunks : List (List ℕ)) (size : ℕ) (payload : List ℕ) :
    Option (List ℕ) :=
  match fuel with
  | 0 => none
  | fuel + 1 =>
    if payload.length < size then
      let (c, rest) := recvChunk chunks (size - payload.length)
      recvLoop fuel rest size (payload ++ c)
    else
      some payload

/-! ### Metric sorting (`printMetrics`) -/

/-- Stable insertion of a metric into a name-sorted list: `x` goes before the
first element whose name is ≥ `x.name`, so an element inserted later never
overtakes an equal-named one inserted earlier.  This is the specification of
Python's stable `list.sort()` under `Metric.__lt__` (comparison by `name`). -/
def insertMetric (x : Metric) : List Metric → List Metric
  | [] => [x]
  | y :: ys => if x.name ≤ y.name then x :: y :: ys else y :: insertMetric x ys

/-- `self.metrics.sort()` in `printMetrics`: a stable sort by metric name. -/
def sortMetrics : List Metric → List Metric
  | [] => []
  | x :: xs => insertMetric x (sortMetrics xs)

/-- The per-block conversion loop of `fetchMetrics`
(`prometheus.py` lines 84-85 and 92-93): extend the metric list with
`converter.metric(register, response)` for each register of the block,
propagating the first exception. -/
def convertBlock (table : List (ℕ × RegDef)) (base count : ℕ)
    (store : ℕ → Option ℕ) : Except RegErr (List Metric) :=
  match count with
  | 0 => .ok []
  | count + 1 => do
    let ms ← metricAt table base store
    let rest ← convertBlock table (base + 1) count store
    .ok (ms ++ rest)

/-! ## The shipped register definition tables (`register.py`)

Generated entry-for-entry from the two `register_definition` dict literals.
Python dict literals keep the **later** value for a duplicated key, so the
entries that list `scaling` twice (input registers 246, 273, 274, 281) carry
their second value, `Scaling.MILLI`. -/

/-- Entries 0-49 of `holdingRegisterDefinition`. -/
def holdingRegisterDefinition_0 : List (ℕ × RegDef) := [
  (0, { name := some "device_type_code", type := some .HEX }),
  (1, { name := some "inverter_module", type := some .UINT32_HIGH, more := some (.addr 2) }),
  (2, { cont := some "inverter_module" }),
  (3, { name := some "num_mppt", name2 := some "num_phases", type := some .DUINT8 }),
  (4, { unknown := some "holding_reg004" }),
  (5, { unknown := some "holding_reg005" }),
  (6, { unknown := some "holding_reg006" }),
  (7, { name := some "enable_ammeter", type := some .BOOL }),
  (8, { name := some "first_battery_serial_number", type := some .ASCII, more := some (.addrs [9, 10, 11, 12]) }),
  (9, { cont := some "first_battery_serial_number" }),
  (10, { cont := some "first_battery_serial_number" }),
  (11, { cont := some "first_battery_serial_number" }),
  (12, { cont := some "first_battery_serial_number" }),
  (13, { name := some "inverter_serial_number", type := some .ASCII, more := some (.addrs [14, 15, 16, 17]) }),
  (14, { cont := some "inverter_serial_number" }),
  (15, { cont := some "inverter_serial_number" }),
  (16, { cont := some "inverter_serial_number" }),
  (17, { cont := some "inverter_serial_number" }),
  (18, { name := some "first_battery_bms_firmware_version" }),
  (19, { name := some "dsp_firmware_version" }),
  (20, { name := some "enable_charge_target", type := some .BOOL, write_safe := some true }),
  (21, { name := some "arm_firmware_version" }),
  (22, { name := some "usb_device_inserted" }),
  (23, { name := some "select_arm_chip", type := some .BOOL }),
  (24, { name := some "variable_address" }),
  (25, { name := some "variable_value", type := some .INT16 }),
  (26, { name := some "p_grid_port_max_output", unit := some .POWER_W }),
  (27, { name := some "battery_power_mode", write_safe := some true }),
  (28, { name := some "enable_60hz_freq_mode", type := some .BOOL }),
  (29, { name := some "soc_force_adjust" }),
  (30, { name := some "inverter_modbus_address", type := some .UINT8 }),
  (31, { name := some "charge_slot_2_start", type := some .TIME, write_safe := some true }),
  (32, { name := some "charge_slot_2_end", type := some .TIME, write_safe := some true }),
  (33, { name := some "user_code" }),
  (34, { name := some "modbus_version", scaling := some Scaling.CENTI }),
  (35, { name := some "system_time_year", write_safe := some true }),
  (36, { name := some "system_time_month", write_safe := some true }),
  (37, { name := some "system_time_day", write_safe := some true }),
  (38, { name := some "system_time_hour", write_safe := some true }),
  (39, { name := some "system_time_minute", write_safe := some true }),
  (40, { name := some "system_time_second", write_safe := some true }),
  (41, { name := some "enable_drm_rj45_port", type := some .BOOL }),
  (42, { name := some "ct_adjust", type := some .BITFIELD }),
  (43, { name := some "charge_soc", name2 := some "discharge_soc", type := some .DUINT8 }),
  (44, { name := some "discharge_slot_2_start", type := some .TIME, write_safe := some true }),
  (45, { name := some "discharge_slot_2_end", type := some .TIME, write_safe := some true }),
  (46, { name := some "bms_chip_version" }),
  (47, { name := some "meter_type" }),
  (48, { name := some "reverse_115_meter_direct", type := some .BOOL }),
  (49, { name := some "reverse_418_meter_direct", type := some .BOOL })
  ]

/-- Entries 50-99 of `holdingRegisterDefinition`. -/
def holdingRegisterDefinition_1 : List (ℕ × RegDef) := [
  (50, { name := some "active_power_rate", scaling := some Scaling.CENTI }),
  (51, { name := some "reactive_power_rate", scaling := some Scaling.CENTI }),
  (52, { name := some "power_factor", type := some .POWER_FACTOR }),
  (53, { name := some "inverter_auto_restart_state", name2 := some "inverter_enable_state", type := some .DUINT8 }),
  (54, { name := some "battery_type" }),
  (55, { name := some "battery_nominal_capacity", unit := some .CHARGE_AH }),
  (56, { name := some "discharge_slot_1_start", type := some .TIME, write_safe := some true }),
  (57, { name := some "discharge_slot_1_end", type := some .TIME, write_safe := some true }),
  (58, { name := some "enable_auto_judge_battery_type", type := some .BOOL }),
  (59, { name := some "enable_discharge", type := some .BOOL, write_safe := some true }),
  (60, { name := some "pv_input_start", scaling := some Scaling.DECI, unit := some .VOLTAGE_V }),
  (61, { name := some "inverter_start_time", unit := some .TIME_S }),
  (62, { name := some "inverter_restart_delay_time", unit := some .TIME_S }),
  (63, { name := some "ac_low_out", scaling := some Scaling.DECI, unit := some .VOLTAGE_V }),
  (64, { name := some "ac_high_out", scaling := some Scaling.DECI, unit := some .VOLTAGE_V }),
  (65, { name := some "ac_low_out", scaling := some Scaling.CENTI, unit := some .FREQUENCY_HZ }),
  (66, { name := some "ac_high_out", scaling := some Scaling.CENTI, unit := some .FREQUENCY_HZ }),
  (67, { name := some "ac_low_out_time" }),
  (68, { name := some "ac_high_out_time" }),
  (69, { name := some "ac_low_out_time" }),
  (70, { name := some "ac_high_out_time" }),
  (71, { name := some "ac_low_in", scaling := some Scaling.DECI, unit := some .VOLTAGE_V }),
  (72, { name := some "ac_high_in", scaling := some Scaling.DECI, unit := some .VOLTAGE_V }),
  (73, { name := some "ac_low_in", scaling := some Scaling.CENTI, unit := some .FREQUENCY_HZ }),
  (74, { name := some "ac_high_in", scaling := some Scaling.CENTI, unit := some .FREQUENCY_HZ }),
  (75, { name := some "ac_low_in_time" }),
  (76, { name := some "ac_high_in_time" }),
  (77, { name := some "ac_low_in_time" }),
  (78, { name := some "ac_high_in_time" }),
  (79, { name := some "ac_low_c", scaling := some Scaling.DECI, unit := some .VOLTAGE_V }),
  (80, { name := some "ac_high_c", scaling := some Scaling.DECI, unit := some .VOLTAGE_V }),
  (81, { name := some "ac_low_c", scaling := some Scaling.CENTI, unit := some .FREQUENCY_HZ }),
  (82, { name := some "ac_high_c", scaling := some Scaling.CENTI, unit := some .FREQUENCY_HZ }),
  (83, { name := some "10_min_protection", scaling := some Scaling.DECI, unit := some .VOLTAGE_V }),
  (84, { name := some "iso1" }),
  (85, { name := some "iso2" }),
  (86, { name := some "gfci_1_i", unit := some .CURRENT_A, scaling := some Scaling.MILLI }),
  (87, { name := some "gfci_1_time" }),
  (88, { name := some "gfci_2_i", unit := some .CURRENT_A, scaling := some Scaling.MILLI }),
  (89, { name := some "gfci_2_time" }),
  (90, { name := some "dci_1_i", unit := some .CURRENT_A, scaling := some Scaling.MILLI }),
  (91, { name := some "dci_1_time" }),
  (92, { name := some "dci_2_i", unit := some .CURRENT_A, scaling := some Scaling.MILLI }),
  (93, { name := some "dci_2_time" }),
  (94, { name := some "charge_slot_1_start", type := some .TIME, write_safe := some true }),
  (95, { name := some "charge_slot_1_end", type := some .TIME, write_safe := some true }),
  (96, { name := some "enable_charge", type := some .BOOL, write_safe := some true }),
  (97, { name := some "battery_under_protection_limit", scaling := some Scaling.CENTI, unit := some .VOLTAGE_V }),
  (98, { name := some "battery_over_protection_limit", scaling := some Scaling.CENTI, unit := some .VOLTAGE_V }),
  (99, { name := some "pv1_voltage_adjust", scaling := some Scaling.DECI, unit := some .VOLTAGE_V })
  ]

/-- Entries 100-149 of `holdingRegisterDefinition`. -/
def holdingRegisterDefinition_2 : List (ℕ × RegDef) := [
  (100, { name := some "pv2_voltage_adjust", scaling := some Scaling.DECI, unit := some .VOLTAGE_V }),
  (101, { name := some "grid_r_voltage_adjust", scaling := some Scaling.DECI, unit := some .VOLTAGE_V }),
  (102, { name := some "grid_s_voltage_adjust", scaling := some Scaling.DECI, unit := some .VOLTAGE_V }),
  (103, { name := some "grid_t_voltage_adjust", scaling := some Scaling.DECI, unit := some .VOLTAGE_V }),
  (104, { name := some "grid_power_adjust", unit := some .POWER_W }),
  (105, { name := some "battery_voltage_adjust", scaling := some Scaling.DECI, unit := some .VOLTAGE_V }),
  (106, { name := some "pv1_power_adjust", unit := some .POWER_W }),
  (107, { name := some "pv2_power_adjust", unit := some .POWER_W }),
  (108, { name := some "battery_low_force_charge_time", unit := some .TIME_M }),
  (109, { name := some "enable_bms_read", type := some .BOOL }),
  (110, { name := some "battery_soc_reserve", scaling := some Scaling.CENTI, write_safe := some true }),
  (111, { name := some "battery_charge_limit", scaling := some Scaling.CENTI, write_safe := some true }),
  (112, { name := some "battery_discharge_limit", scaling := some Scaling.CENTI, write_safe := some true }),
  (113, { name := some "enable_buzzer", type := some .BOOL }),
  (114, { name := some "battery_discharge_min_power_reserve", scaling := some Scaling.CENTI, write_safe := some true }),
  (115, { name := some "island_check_continue" }),
  (116, { name := some "charge_target_soc", scaling := some Scaling.CENTI, write_safe := some true }),
  (117, { name := some "charge_soc_stop_2", scaling := some Scaling.CENTI }),
  (118, { name := some "discharge_soc_stop_2", scaling := some Scaling.CENTI }),
  (119, { name := some "charge_soc_stop_1", scaling := some Scaling.CENTI }),
  (120, { name := some "discharge_soc_stop_1", scaling := some Scaling.CENTI }),
  (121, { name := some "local_command_test" }),
  (122, { name := some "power_factor_function_model" }),
  (123, { name := some "frequency_load_limit_rate" }),
  (124, { name := some "enable_low_voltage_fault_ride_through", type := some .BOOL }),
  (125, { name := some "enable_frequency_derating", type := some .BOOL }),
  (126, { name := some "enable_above_6kw_system", type := some .BOOL }),
  (127, { name := some "start_system_auto_test", type := some .BOOL }),
  (128, { name := some "enable_spi", type := some .BOOL }),
  (129, { name := some "pf_cmd_memory_state" }),
  (130, { name := some "pf_limit_lp1_lp", scaling := some Scaling.DECI }),
  (131, { name := some "pf_limit_lp1_pf", type := some .POWER_FACTOR }),
  (132, { name := some "pf_limit_lp2_lp", scaling := some Scaling.DECI }),
  (133, { name := some "pf_limit_lp2_pf", type := some .POWER_FACTOR }),
  (134, { name := some "pf_limit_lp3_lp", scaling := some Scaling.DECI }),
  (135, { name := some "pf_limit_lp3_pf", type := some .POWER_FACTOR }),
  (136, { name := some "pf_limit_lp4_lp", scaling := some Scaling.DECI }),
  (137, { name := some "pf_limit_lp4_pf", type := some .POWER_FACTOR }),
  (138, { name := some "cei021_v1s" }),
  (139, { name := some "cei021_v2s" }),
  (140, { name := some "cei021_v1l" }),
  (141, { name := some "cei021_v2l" }),
  (142, { name := some "cei021_q_lock_in_power", scaling := some Scaling.DECI }),
  (143, { name := some "cei021_q_lock_out_power", scaling := some Scaling.DECI }),
  (144, { name := some "cei021_lock_in_grid_voltage", scaling := some Scaling.DECI, unit := some .VOLTAGE_V }),
  (145, { name := some "cei021_lock_out_grid_voltage", scaling := some Scaling.DECI, unit := some .VOLTAGE_V }),
  (146, { unknown := some "holding_reg146" }),
  (147, { unknown := some "holding_reg147" }),
  (148, { unknown := some "holding_reg148" }),
  (149, { unknown := some "holding_reg149" })
  ]

/-- Entries 150-199 of `holdingRegisterDefinition`. -/
def holdingRegisterDefinition_3 : List (ℕ × RegDef) := [
  (150, { unknown := some "holding_reg150" }),
  (151, { unknown := some "holding_reg151" }),
  (152, { unknown := some "holding_reg152" }),
  (153, { unknown := some "holding_reg153" }),
  (154, { unknown := some "holding_reg154" }),
  (155, { unknown := some "holding_reg155" }),
  (156, { unknown := some "holding_reg156" }),
  (157, { unknown := some "holding_reg157" }),
  (158, { unknown := some "holding_reg158" }),
  (159, { unknown := some "holding_reg159" }),
  (160, { unknown := some "holding_reg160" }),
  (161, { unknown := some "holding_reg161" }),
  (162, { unknown := some "holding_reg162" }),
  (163, { unknown := some "holding_reg163" }),
  (164, { unknown := some "holding_reg164" }),
  (165, { unknown := some "holding_reg165" }),
  (166, { unknown := some "holding_reg166" }),
  (167, { unknown := some "holding_reg167" }),
  (168, { unknown := some "holding_reg168" }),
  (169, { unknown := some "holding_reg169" }),
  (170, { unknown := some "holding_reg170" }),
  (171, { unknown := some "holding_reg171" }),
  (172, { unknown := some "holding_reg172" }),
  (173, { unknown := some "holding_reg173" }),
  (174, { unknown := some "holding_reg174" }),
  (175, { unknown := some "holding_reg175" }),
  (176, { unknown := some "holding_reg176" }),
  (177, { unknown := some "holding_reg177" }),
  (178, { unknown := some "holding_reg178" }),
  (179, { unknown := some "holding_reg179" }),
  (180, { unknown := some "holding_reg180" }),
  (181, { unknown := some "holding_reg181" }),
  (182, { unknown := some "holding_reg182" }),
  (183, { unknown := some "holding_reg183" }),
  (184, { unknown := some "holding_reg184" }),
  (185, { unknown := some "holding_reg185" }),
  (186, { unknown := some "holding_reg186" }),
  (187, { unknown := some "holding_reg187" }),
  (188, { unknown := some "holding_reg188" }),
  (189, { unknown := some "holding_reg189" }),
  (190, { unknown := some "holding_reg190" }),
  (191, { unknown := some "holding_reg191" }),
  (192, { unknown := some "holding_reg192" }),
  (193, { unknown := some "holding_reg193" }),
  (194, { unknown := some "holding_reg194" }),
  (195, { unknown := some "holding_reg195" }),
  (196, { unknown := some "holding_reg196" }),
  (197, { unknown := some "holding_reg197" }),
  (198, { unknown := some "holding_reg198" }),
  (199, { unknown := some "holding_reg199" })
  ]

/-- Entries 200-201 of `holdingRegisterDefinition`. -/
def holdingRegisterDefinition_4 : List (ℕ × RegDef) := [
  (200, { unknown := some "holding_reg200" }),
  (201, { unknown := some "holding_reg201" })
  ]

def holdingRegisterDefinition : List (ℕ × RegDef) :=
  holdingRegisterDefinition_0 ++ holdingRegisterDefinition_1 ++ holdingRegisterDefinition_2 ++ holdingRegisterDefinition_3 ++ holdingRegisterDefinition_4

/-- Entries 0-49 of `inputRegisterDefinition`. -/
def inputRegisterDefinition_0 : List (ℕ × RegDef) := [
  (0, { name := some "inverter_status" }),
  (1, { name := some "pv1", scaling := some Scaling.DECI, unit := some .VOLTAGE_V }),
  (2, { name := some "pv2", scaling := some Scaling.DECI, unit := some .VOLTAGE_V }),
  (3, { name := some "p_bus", scaling := some Scaling.DECI, unit := some .VOLTAGE_V }),
  (4, { name := some "n_bus", scaling := some Scaling.DECI, unit := some .VOLTAGE_V }),
  (5, { name := some "ac1", scaling := some Scaling.DECI, unit := some .VOLTAGE_V }),
  (6, { name := some "battery_throughput_total", prometheus := some "counter", type := some .UINT32_HIGH, scaling := some Scaling.DECI, unit := some .ENERGY_KWH, more := some (.addr 7) }),
  (7, { cont := some "battery_throughput_total" }),
  (8, { name := some "pv1", scaling := some Scaling.CENTI, unit := some .CURRENT_A }),
  (9, { name := some "pv2", scaling := some Scaling.CENTI, unit := some .CURRENT_A }),
  (10, { name := some "ac1", scaling := some Scaling.CENTI, unit := some .CURRENT_A }),
  (11, { name := some "pv_total", prometheus := some "counter", type := some .UINT32_HIGH, scaling := some Scaling.DECI, unit := some .ENERGY_KWH, more := some (.addr 12) }),
  (12, { cont := some "pv_total" }),
  (13, { name := some "ac1", scaling := some Scaling.CENTI, unit := some .FREQUENCY_HZ }),
  (14, { name := some "charge_status" }),
  (15, { name := some "highbrigh_bus" }),
  (16, { name := some "inverter_out", type := some .POWER_FACTOR }),
  (17, { name := some "pv1_day", scaling := some Scaling.DECI, unit := some .ENERGY_KWH }),
  (18, { name := some "pv1", unit := some .POWER_KW }),
  (19, { name := some "pv2_day", scaling := some Scaling.DECI, unit := some .ENERGY_KWH }),
  (20, { name := some "pv2", unit := some .POWER_KW }),
  (21, { name := some "grid_out_total", prometheus := some "counter", type := some .UINT32_HIGH, scaling := some Scaling.DECI, unit := some .ENERGY_KWH, more := some (.addr 22) }),
  (22, { cont := some "grid_out_total" }),
  (23, { name := some "solar_diverter", scaling := some Scaling.DECI, unit := some .ENERGY_KWH }),
  (24, { name := some "inverter_out", type := some .INT16, unit := some .POWER_W }),
  (25, { name := some "grid_out_day", scaling := some Scaling.DECI, unit := some .ENERGY_KWH }),
  (26, { name := some "grid_in_day", scaling := some Scaling.DECI, unit := some .ENERGY_KWH }),
  (27, { name := some "inverter_in_total", prometheus := some "counter", type := some .UINT32_HIGH, scaling := some Scaling.DECI, unit := some .ENERGY_KWH, more := some (.addr 28) }),
  (28, { cont := some "inverter_in_total" }),
  (29, { name := some "discharge_year", scaling := some Scaling.DECI, unit := some .ENERGY_KWH }),
  (30, { name := some "grid_out", type := some .INT16, unit := some .POWER_W }),
  (31, { name := some "eps_backup", unit := some .POWER_W }),
  (32, { name := some "grid_in_total", prometheus := some "counter", type := some .UINT32_HIGH, scaling := some Scaling.DECI, unit := some .ENERGY_KWH, more := some (.addr 33) }),
  (33, { cont := some "grid_in_total" }),
  (34, { unknown := some "input_reg034" }),
  (35, { name := some "inverter_in_day", scaling := some Scaling.DECI, unit := some .ENERGY_KWH }),
  (36, { name := some "battery_charge_day", scaling := some Scaling.DECI, unit := some .ENERGY_KWH }),
  (37, { name := some "battery_discharge_day", scaling := some Scaling.DECI, unit := some .ENERGY_KWH }),
  (38, { name := some "inverter_countdown", unit := some .TIME_S }),
  (39, { name := some "fault_code_h", type := some .BITFIELD }),
  (40, { name := some "fault_code_l", type := some .BITFIELD }),
  (41, { name := some "inverter_heatsink", scaling := some Scaling.DECI, unit := some .TEMPERATURE_C }),
  (42, { name := some "load_demand", unit := some .POWER_W }),
  (43, { name := some "grid_apparent", unit := some .POWER_VA }),
  (44, { name := some "inverter_out_day", scaling := some Scaling.DECI, unit := some .ENERGY_KWH }),
  (45, { name := some "inverter_out_total", prometheus := some "counter", type := some .UINT32_HIGH, scaling := some Scaling.DECI, unit := some .ENERGY_KWH, more := some (.addr 46) }),
  (46, { cont := some "inverter_out_total" }),
  (47, { name := some "work_time_total", type := some .UINT32_HIGH, unit := some .TIME_S, more := some (.addr 48) }),
  (48, { cont := some "work_time_total" }),
  (49, { name := some "system_mode" })
  ]

/-- Entries 50-99 of `inputRegisterDefinition`. -/
def inputRegisterDefinition_1 : List (ℕ × RegDef) := [
  (50, { name := some "battery", scaling := some Scaling.CENTI, unit := some .VOLTAGE_V }),
  (51, { name := some "battery", type := some .INT16, scaling := some Scaling.CENTI, unit := some .CURRENT_A }),
  (52, { name := some "battery", type := some .INT16, unit := some .POWER_W }),
  (53, { name := some "eps_backup", scaling := some Scaling.DECI, unit := some .VOLTAGE_V }),
  (54, { name := some "eps_backup", scaling := some Scaling.CENTI, unit := some .FREQUENCY_HZ }),
  (55, { name := some "charger", scaling := some Scaling.DECI, unit := some .TEMPERATURE_C }),
  (56, { name := some "battery", scaling := some Scaling.DECI, unit := some .TEMPERATURE_C }),
  (57, { name := some "charger_warning_code" }),
  (58, { name := some "grid_port", scaling := some Scaling.CENTI, unit := some .CURRENT_A }),
  (59, { name := some "battery_level", scaling := some Scaling.CENTI }),
  (60, { name := some "battery_cell_01", scaling := some Scaling.MILLI, unit := some .VOLTAGE_V }),
  (61, { name := some "battery_cell_02", scaling := some Scaling.MILLI, unit := some .VOLTAGE_V }),
  (62, { name := some "battery_cell_03", scaling := some Scaling.MILLI, unit := some .VOLTAGE_V }),
  (63, { name := some "battery_cell_04", scaling := some Scaling.MILLI, unit := some .VOLTAGE_V }),
  (64, { name := some "battery_cell_05", scaling := some Scaling.MILLI, unit := some .VOLTAGE_V }),
  (65, { name := some "battery_cell_06", scaling := some Scaling.MILLI, unit := some .VOLTAGE_V }),
  (66, { name := some "battery_cell_07", scaling := some Scaling.MILLI, unit := some .VOLTAGE_V }),
  (67, { name := some "battery_cell_08", scaling := some Scaling.MILLI, unit := some .VOLTAGE_V }),
  (68, { name := some "battery_cell_09", scaling := some Scaling.MILLI, unit := some .VOLTAGE_V }),
  (69, { name := some "battery_cell_10", scaling := some Scaling.MILLI, unit := some .VOLTAGE_V }),
  (70, { name := some "battery_cell_11", scaling := some Scaling.MILLI, unit := some .VOLTAGE_V }),
  (71, { name := some "battery_cell_12", scaling := some Scaling.MILLI, unit := some .VOLTAGE_V }),
  (72, { name := some "battery_cell_13", scaling := some Scaling.MILLI, unit := some .VOLTAGE_V }),
  (73, { name := some "battery_cell_14", scaling := some Scaling.MILLI, unit := some .VOLTAGE_V }),
  (74, { name := some "battery_cell_15", scaling := some Scaling.MILLI, unit := some .VOLTAGE_V }),
  (75, { name := some "battery_cell_16", scaling := some Scaling.MILLI, unit := some .VOLTAGE_V }),
  (76, { name := some "battery_cells_1", scaling := some Scaling.DECI, unit := some .TEMPERATURE_C }),
  (77, { name := some "battery_cells_2", scaling := some Scaling.DECI, unit := some .TEMPERATURE_C }),
  (78, { name := some "battery_cells_3", scaling := some Scaling.DECI, unit := some .TEMPERATURE_C }),
  (79, { name := some "battery_cells_4", scaling := some Scaling.DECI, unit := some .TEMPERATURE_C }),
  (80, { name := some "battery_cells_sum", scaling := some Scaling.MILLI, unit := some .VOLTAGE_V }),
  (81, { name := some "temp_bms_mos", scaling := some Scaling.DECI, unit := some .TEMPERATURE_C }),
  (82, { name := some "battery_out", type := some .UINT32_HIGH, scaling := some Scaling.MILLI, unit := some .VOLTAGE_V, more := some (.addr 83) }),
  (83, { cont := some "battery_out" }),
  (84, { name := some "battery_full_capacity", type := some .UINT32_HIGH, scaling := some Scaling.CENTI, unit := some .CHARGE_AH, more := some (.addr 85) }),
  (85, { cont := some "battery_full_capacity", type := some .UINT32_LOW, scaling := some Scaling.CENTI, unit := some .CHARGE_AH }),
  (86, { name := some "battery_design_capacity", type := some .UINT32_HIGH, scaling := some Scaling.CENTI, unit := some .CHARGE_AH, more := some (.addr 87) }),
  (87, { cont := some "battery_design_capacity" }),
  (88, { name := some "battery_remaining_capacity", type := some .UINT32_HIGH, scaling := some Scaling.CENTI, unit := some .CHARGE_AH, more := some (.addr 89) }),
  (89, { cont := some "battery_remaining_capacity" }),
  (90, { name := some "battery_status_1", name2 := some "battery_status_2", type := some .DUINT8 }),
  (91, { name := some "battery_status_3", name2 := some "battery_status_4", type := some .DUINT8 }),
  (92, { name := some "battery_status_5", name2 := some "battery_status_6", type := some .DUINT8 }),
  (93, { name := some "battery_status_7", name2 := some "battery_status_8", type := some .DUINT8 }),
  (94, { name := some "battery_warning_1", name2 := some "battery_warning_2", type := some .DUINT8 }),
  (95, { unknown := some "input_reg095" }),
  (96, { name := some "battery_num_cycles" }),
  (97, { name := some "battery_num_cells" }),
  (98, { name := some "bms_firmware_version" }),
  (99, { unknown := some "input_reg099" })
  ]

/-- Entries 100-149 of `inputRegisterDefinition`. -/
def inputRegisterDefinition_2 : List (ℕ × RegDef) := [
  (100, { name := some "battery_soc" }),
  (101, { name := some "battery_design_capacity_2", type := some .UINT32_HIGH, scaling := some Scaling.CENTI, unit := some .CHARGE_AH, more := some (.addr 102) }),
  (102, { cont := some "battery_design_capacity_2" }),
  (103, { name := some "temp_battery_max", scaling := some Scaling.DECI, unit := some .TEMPERATURE_C }),
  (104, { name := some "temp_battery_min", scaling := some Scaling.DECI, unit := some .TEMPERATURE_C }),
  (105, { name := some "battery_discharge_total_2", scaling := some Scaling.DECI, unit := some .ENERGY_KWH }),
  (106, { name := some "battery_charge_total_2", scaling := some Scaling.DECI, unit := some .ENERGY_KWH }),
  (107, { unknown := some "input_reg107" }),
  (108, { unknown := some "input_reg108" }),
  (109, { unknown := some "input_reg109" }),
  (110, { name := some "battery_serial_number", type := some .ASCII, more := some (.addrs [111, 112, 113, 114]) }),
  (111, { cont := some "battery_serial_number" }),
  (112, { cont := some "battery_serial_number" }),
  (113, { cont := some "battery_serial_number" }),
  (114, { cont := some "battery_serial_number" }),
  (115, { name := some "usb_inserted", type := some .BOOL, true_value := some 0x08 }),
  (116, { unknown := some "input_reg116" }),
  (117, { unknown := some "input_reg117" }),
  (118, { unknown := some "input_reg118" }),
  (119, { unknown := some "input_reg119" }),
  (120, { unknown := some "input_reg120" }),
  (121, { unknown := some "input_reg121" }),
  (122, { unknown := some "input_reg122" }),
  (123, { unknown := some "input_reg123" }),
  (124, { unknown := some "input_reg124" }),
  (125, { unknown := some "input_reg125" }),
  (126, { unknown := some "input_reg126" }),
  (127, { unknown := some "input_reg127" }),
  (128, { unknown := some "input_reg128" }),
  (129, { unknown := some "input_reg129" }),
  (130, { unknown := some "input_reg130" }),
  (131, { unknown := some "input_reg131" }),
  (132, { unknown := some "input_reg132" }),
  (133, { unknown := some "input_reg133" }),
  (134, { unknown := some "input_reg134" }),
  (135, { unknown := some "input_reg135" }),
  (136, { unknown := some "input_reg136" }),
  (137, { unknown := some "input_reg137" }),
  (138, { unknown := some "input_reg138" }),
  (139, { unknown := some "input_reg139" }),
  (140, { unknown := some "input_reg140" }),
  (141, { unknown := some "input_reg141" }),
  (142, { unknown := some "input_reg142" }),
  (143, { unknown := some "input_reg143" }),
  (144, { unknown := some "input_reg144" }),
  (145, { unknown := some "input_reg145" }),
  (146, { unknown := some "input_reg146" }),
  (147, { unknown := some "input_reg147" }),
  (148, { unknown := some "input_reg148" }),
  (149, { unknown := some "input_reg149" })
  ]

/-- Entries 150-199 of `inputRegisterDefinition`. -/
def inputRegisterDefinition_3 : List (ℕ × RegDef) := [
  (150, { unknown := some "input_reg150" }),
  (151, { unknown := some "input_reg151" }),
  (152, { unknown := some "input_reg152" }),
  (153, { unknown := some "input_reg153" }),
  (154, { unknown := some "input_reg154" }),
  (155, { unknown := some "input_reg155" }),
  (156, { unknown := some "input_reg156" }),
  (157, { unknown := some "input_reg157" }),
  (158, { unknown := some "input_reg158" }),
  (159, { unknown := some "input_reg159" }),
  (160, { unknown := some "input_reg160" }),
  (161, { unknown := some "input_reg161" }),
  (162, { unknown := some "input_reg162" }),
  (163, { unknown := some "input_reg163" }),
  (164, { unknown := some "input_reg164" }),
  (165, { unknown := some "input_reg165" }),
  (166, { unknown := some "input_reg166" }),
  (167, { unknown := some "input_reg167" }),
  (168, { unknown := some "input_reg168" }),
  (169, { unknown := some "input_reg169" }),
  (170, { unknown := some "input_reg170" }),
  (171, { unknown := some "input_reg171" }),
  (172, { unknown := some "input_reg172" }),
  (173, { unknown := some "input_reg173" }),
  (174, { unknown := some "input_reg174" }),
  (175, { unknown := some "input_reg175" }),
  (176, { unknown := some "input_reg176" }),
  (177, { unknown := some "input_reg177" }),
  (178, { unknown := some "input_reg178" }),
  (179, { unknown := some "input_reg179" }),
  (180, { name := some "battery_discharge_total", scaling := some Scaling.DECI, unit := some .ENERGY_KWH }),
  (181, { name := some "battery_charge_total", scaling := some Scaling.DECI, unit := some .ENERGY_KWH }),
  (182, { name := some "battery_discharge_day_2", scaling := some Scaling.DECI, unit := some .ENERGY_KWH }),
  (183, { name := some "battery_charge_day_2", scaling := some Scaling.DECI, unit := some .ENERGY_KWH }),
  (184, { unknown := some "input_reg184" }),
  (185, { unknown := some "input_reg185" }),
  (186, { unknown := some "input_reg186" }),
  (187, { unknown := some "input_reg187" }),
  (188, { unknown := some "input_reg188" }),
  (189, { unknown := some "input_reg189" }),
  (190, { unknown := some "input_reg190" }),
  (191, { unknown := some "input_reg191" }),
  (192, { unknown := some "input_reg192" }),
  (193, { unknown := some "input_reg193" }),
  (194, { unknown := some "input_reg194" }),
  (195, { unknown := some "input_reg195" }),
  (196, { unknown := some "input_reg196" }),
  (197, { unknown := some "input_reg197" }),
  (198, { unknown := some "input_reg198" }),
  (199, { unknown := some "input_reg199" })
  ]

/-- Entries 200-249 of `inputRegisterDefinition`. -/
def inputRegisterDefinition_4 : List (ℕ × RegDef) := [
  (200, { unknown := some "input_reg200" }),
  (201, { name := some "remote_bms_restart", type := some .BOOL }),
  (202, { unknown := some "input_reg202" }),
  (203, { unknown := some "input_reg203" }),
  (204, { unknown := some "input_reg204" }),
  (205, { unknown := some "input_reg205" }),
  (206, { unknown := some "input_reg206" }),
  (207, { unknown := some "input_reg207" }),
  (208, { unknown := some "input_reg208" }),
  (209, { unknown := some "input_reg209" }),
  (210, { name := some "iso_fault_value", scaling := some Scaling.DECI, unit := some .VOLTAGE_V }),
  (211, { name := some "gfci_fault_value", unit := some .CURRENT_A, scaling := some Scaling.MILLI }),
  (212, { name := some "dci_fault_value", scaling := some Scaling.CENTI, unit := some .CURRENT_A }),
  (213, { name := some "pv_fault_value", scaling := some Scaling.DECI, unit := some .VOLTAGE_V }),
  (214, { name := some "ac_fault_value", scaling := some Scaling.DECI, unit := some .VOLTAGE_V }),
  (215, { name := some "av_fault_value", scaling := some Scaling.CENTI, unit := some .FREQUENCY_HZ }),
  (216, { name := some "temp_fault_value", scaling := some Scaling.DECI, unit := some .TEMPERATURE_C }),
  (217, { unknown := some "input_reg217" }),
  (218, { unknown := some "input_reg218" }),
  (219, { unknown := some "input_reg219" }),
  (220, { unknown := some "input_reg220" }),
  (221, { unknown := some "input_reg221" }),
  (222, { unknown := some "input_reg222" }),
  (223, { unknown := some "input_reg223" }),
  (224, { unknown := some "input_reg224" }),
  (225, { name := some "auto_test_process_or_auto_test_step", type := some .BITFIELD }),
  (226, { name := some "auto_test_result" }),
  (227, { name := some "auto_test_stop_step" }),
  (228, { unknown := some "input_reg228" }),
  (229, { name := some "safety_v_f_limit", scaling := some Scaling.DECI }),
  (230, { name := some "safety_time_limit", unit := some .TIME_S, scaling := some Scaling.MILLI }),
  (231, { name := some "real_v_f_value", scaling := some Scaling.DECI }),
  (232, { name := some "test_value", scaling := some Scaling.DECI }),
  (233, { name := some "test_treat_value", scaling := some Scaling.DECI }),
  (234, { name := some "test_treat_time" }),
  (235, { unknown := some "input_reg235" }),
  (236, { unknown := some "input_reg236" }),
  (237, { unknown := some "input_reg237" }),
  (238, { unknown := some "input_reg238" }),
  (239, { unknown := some "input_reg239" }),
  (240, { name := some "ac1_m3", scaling := some Scaling.DECI, unit := some .VOLTAGE_V }),
  (241, { name := some "ac2_m3", scaling := some Scaling.DECI, unit := some .VOLTAGE_V }),
  (242, { name := some "ac3_m3", scaling := some Scaling.DECI, unit := some .VOLTAGE_V }),
  (243, { name := some "ac1_m3", scaling := some Scaling.CENTI, unit := some .CURRENT_A }),
  (244, { name := some "ac2_m3", scaling := some Scaling.CENTI, unit := some .CURRENT_A }),
  (245, { name := some "ac3_m3", scaling := some Scaling.CENTI, unit := some .CURRENT_A }),
  (246, { name := some "gfci_m3", scaling := some Scaling.MILLI, unit := some .CURRENT_A }),
  (247, { unknown := some "input_reg247" }),
  (248, { unknown := some "input_reg248" }),
  (249, { unknown := some "input_reg249" })
  ]

/-- Entries 250-299 of `inputRegisterDefinition`. -/
def inputRegisterDefinition_5 : List (ℕ × RegDef) := [
  (250, { unknown := some "input_reg250" }),
  (251, { unknown := some "input_reg251" }),
  (252, { unknown := some "input_reg252" }),
  (253, { unknown := some "input_reg253" }),
  (254, { unknown := some "input_reg254" }),
  (255, { unknown := some "input_reg255" }),
  (256, { unknown := some "input_reg256" }),
  (257, { unknown := some "input_reg257" }),
  (258, { name := some "pv1_limit", type := some .INT16, scaling := some Scaling.DECI, unit := some .VOLTAGE_V }),
  (259, { name := some "pv2_limit", type := some .INT16, scaling := some Scaling.DECI, unit := some .VOLTAGE_V }),
  (260, { name := some "bus_limit", type := some .INT16, scaling := some Scaling.DECI, unit := some .VOLTAGE_V }),
  (261, { name := some "n_bus_limit", type := some .INT16, scaling := some Scaling.DECI, unit := some .VOLTAGE_V }),
  (262, { name := some "ac1_limit", type := some .INT16, scaling := some Scaling.DECI, unit := some .VOLTAGE_V }),
  (263, { name := some "ac2_limit", type := some .INT16, scaling := some Scaling.DECI, unit := some .VOLTAGE_V }),
  (264, { name := some "ac3_limit", type := some .INT16, scaling := some Scaling.DECI, unit := some .VOLTAGE_V }),
  (265, { name := some "pv1_limit", type := some .INT16, unit := some .CURRENT_A, scaling := some Scaling.MILLI }),
  (266, { name := some "pv2_limit", type := some .INT16, unit := some .CURRENT_A, scaling := some Scaling.MILLI }),
  (267, { name := some "ac1_limit", type := some .INT16, unit := some .CURRENT_A, scaling := some Scaling.MILLI }),
  (268, { name := some "ac2_limit", type := some .INT16, unit := some .CURRENT_A, scaling := some Scaling.MILLI }),
  (269, { name := some "ac3_limit", type := some .INT16, unit := some .CURRENT_A, scaling := some Scaling.MILLI }),
  (270, { name := some "ac1_limit", type := some .INT16, scaling := some Scaling.DECI, unit := some .POWER_W }),
  (271, { name := some "ac2_limit", type := some .INT16, scaling := some Scaling.DECI, unit := some .POWER_W }),
  (272, { name := some "ac3_limit", type := some .INT16, scaling := some Scaling.DECI, unit := some .POWER_W }),
  (273, { name := some "dci_limit", type := some .INT16, scaling := some Scaling.MILLI, unit := some .CURRENT_A }),
  (274, { name := some "gfci_limit", type := some .INT16, scaling := some Scaling.MILLI, unit := some .CURRENT_A }),
  (275, { name := some "ac1_m3_limit", type := some .INT16, scaling := some Scaling.DECI, unit := some .VOLTAGE_V }),
  (276, { name := some "ac2_m3_limit", type := some .INT16, scaling := some Scaling.DECI, unit := some .VOLTAGE_V }),
  (277, { name := some "ac3_m3_limit", type := some .INT16, scaling := some Scaling.DECI, unit := some .VOLTAGE_V }),
  (278, { name := some "ac1_m3_limit", type := some .INT16, scaling := some Scaling.CENTI, unit := some .CURRENT_A }),
  (279, { name := some "ac2_m3_limit", type := some .INT16, scaling := some Scaling.CENTI, unit := some .CURRENT_A }),
  (280, { name := some "ac3_m3_limit", type := some .INT16, scaling := some Scaling.CENTI, unit := some .CURRENT_A }),
  (281, { name := some "gfci_m3_limit", type := some .INT16, scaling := some Scaling.MILLI, unit := some .CURRENT_A }),
  (282, { name := some "battery_limit", type := some .INT16, scaling := some Scaling.CENTI, unit := some .VOLTAGE_V }),
  (283, { unknown := some "input_reg283" }),
  (284, { unknown := some "input_reg284" }),
  (285, { unknown := some "input_reg285" }),
  (286, { unknown := some "input_reg286" }),
  (287, { unknown := some "input_reg287" }),
  (288, { unknown := some "input_reg288" }),
  (289, { unknown := some "input_reg289" }),
  (290, { unknown := some "input_reg290" }),
  (291, { unknown := some "input_reg291" }),
  (292, { unknown := some "input_reg292" }),
  (293, { unknown := some "input_reg293" }),
  (294, { unknown := some "input_reg294" }),
  (295, { unknown := some "input_reg295" }),
  (296, { unknown := some "input_reg296" }),
  (297, { unknown := some "input_reg297" }),
  (298, { unknown := some "input_reg298" }),
  (299, { unknown := some "input_reg299" })
  ]

/-- Entries 300-301 of `inputRegisterDefinition`. -/
def inputRegisterDefinition_6 : List (ℕ × RegDef) := [
  (300, { unknown := some "input_reg300" }),
  (301, { unknown := some "input_reg301" })
  ]

def inputRegisterDefinition : List (ℕ × RegDef) :=
  inputRegisterDefinition_0 ++ inputRegisterDefinition_1 ++ inputRegisterDefinition_2 ++ inputRegisterDefinition_3 ++ inputRegisterDefinition_4 ++ inputRegisterDefinition_5 ++ inputRegisterDefinition_6


/-! ## Claims -/

/-- Splitting `encode` at the header boundary; the payload length is 26
whatever the field values, so the header is a fixed byte string. -/
theorem encode_eq_header_append (fc br rc : ℕ) :
    encode fc br rc = packHeader 0x5959 1 28 1 2 ++ encodePayload fc br rc := rfl

/-- **C1.** For every valid `ReadRequest`, the two CRC bytes written by
`encode` (offsets 32-33, the final bytes of the frame) are the big-endian
encoding of CRC-16/MODBUS (polynomial 0xA001, initial register 0xFFFF)
computed over exactly the 5-byte big-endian sequence function code, base
register, register count — the adapter serial, padding and slave-address
bytes do not enter the computation.  For `function_code=4, base_register=0,
register_count=60` that 5-byte sequence is `[0x04, 0x00, 0x00, 0x00, 0x3C]`
and its CRC-16/MODBUS value is 0xD1D5. -/
theorem request_crc_is_modbus_crc_of_five_bytes (fc br rc : ℕ)
    (h : ValidRequest fc br rc) :
    (encode fc br rc).drop 32 =
      be16 (crc16 [fc, br / 256 % 256, br % 256, rc / 256 % 256, rc % 256]) ∧
    crcInputBytes 4 0 60 = [0x04, 0x00, 0x00, 0x00, 0x3C] ∧
    crc16 [0x04, 0x00, 0x00, 0x00, 0x3C] = 0xD1D5 := by
  refine ⟨?_, by decide, by decide⟩
  rcases h.1 with h3 | h4
  · subst h3; rfl
  · subst h4; rfl

/-- Witness for C1 at the concrete request `(4, 0, 60)`. -/
theorem request_crc_is_modbus_crc_of_five_bytes_witness :
    ValidRequest 4 0 60 ∧
      ((encode 4 0 60).drop 32 =
          be16 (crc16 [4, 0 / 256 % 256, 0 % 256, 60 / 256 % 256, 60 % 256]) ∧
        crcInputBytes 4 0 60 = [0x04, 0x00, 0x00, 0x00, 0x3C] ∧
        crc16 [0x04, 0x00, 0x00, 0x00, 0x3C] = 0xD1D5) :=
  ⟨by decide, request_crc_is_modbus_crc_of_five_bytes 4 0 60 (by decide)⟩

/-- A string read consumes exactly its bytes when they are ASCII. -/
theorem decodeAsciiString_append (n : ℕ) (l R : List ℕ) (hl : l.length = n)
    (ha : l.all (fun b => b < 0x80) = true) :
    decodeAsciiString n (l ++ R) = some (String.mk (l.map Char.ofNat), R) := by
  unfold decodeAsciiString
  rw [List.take_left' hl, List.drop_left' hl, if_pos ha]

/-- A numeric read consumes exactly its bytes. -/
theorem decodeUInt_append (n : ℕ) (l R : List ℕ) (hl : l.length = n) :
    decodeUInt n (l ++ R) = some (beVal l, R) := by
  unfold decodeUInt
  rw [List.take_left' hl, List.drop_left' hl,
    if_pos (by rw [List.length_append, ← hl]; exact Nat.le_add_right _ _)]

theorem beVal_singleton (x : ℕ) : beVal [x] = x := by simp [beVal]

/-- An `ok` result of `metricDef` over a register store holding nothing is
always the empty metric list: every branch that would build a metric first
reads the raw value and gets a `KeyError`. -/
theorem metricDef_empty_store (rd : RegDef) (a : ℕ) (store : ℕ → Option ℕ)
    (hst : ∀ x, store x = none) (ms : List Metric)
    (h : metricDef rd a store = .ok ms) : ms = [] := by
  unfold metricDef at h
  split at h
  · simpa using h.symm
  · split at h
    · simp at h
    · rw [hst a] at h
      simp at h

/-- **C3.** A response payload whose function-code byte has the high bit set
decodes with `error = true`, the function code with the high bit masked off,
an empty register map, and the trailing 16-bit checksum field still consumed;
and the converter can emit no metric from a response with an empty register
map. -/
theorem error_response_decodes_without_registers
    (s1 pad s2 br2 rc2 chk2 rest : List ℕ) (slave fc : ℕ)
    (hs1 : s1.length = 10) (ha1 : s1.all (fun b => b < 0x80) = true)
    (hpad : pad.length = 8)
    (hs2 : s2.length = 10) (ha2 : s2.all (fun b => b < 0x80) = true)
    (hbr : br2.length = 2) (hrc : rc2.length = 2) (hchk : chk2.length = 2)
    (hfc : 0x80 ≤ fc) :
    decodePayload (s1 ++ pad ++ [slave] ++ [fc] ++ s2 ++ br2 ++ rc2 ++ chk2 ++ rest) =
      some ⟨String.mk (s1.map Char.ofNat), beVal pad, slave, fc &&& 0x7F, true,
            String.mk (s2.map Char.ofNat), beVal br2, beVal rc2, [], beVal chk2⟩ ∧
    (∀ r : GivEnergyResponse, r.registers = [] →
      ∀ table a ms, metricAt table a r.register = .ok ms → ms = []) := by
  constructor
  · unfold decodePayload
    simp only [List.append_assoc]
    rw [decodeAsciiString_append 10 s1 _ hs1 ha1]
    simp only [Option.bind_eq_bind, Option.some_bind]
    rw [decodeUInt_append 8 pad _ hpad]
    simp only [Option.some_bind]
    rw [decodeUInt_append 1 [slave] _ rfl]
    simp only [Option.some_bind]
    rw [decodeUInt_append 1 [fc] _ rfl]
    simp only [Option.some_bind, beVal_singleton]
    rw [decide_eq_true hfc]
    simp only [if_true]
    rw [decodeAsciiString_append 10 s2 _ hs2 ha2]
    simp only [Option.some_bind]
    rw [decodeUInt_append 2 br2 _ hbr]
    simp only [Option.some_bind]
    rw [decodeUInt_append 2 rc2 _ hrc]
    simp only [Option.some_bind, if_true]
    rw [decodeUInt_append 2 chk2 _ hchk]
    simp only [Option.some_bind]
  · intro r hr table a ms h
    have hst : ∀ x, r.register x = none := by
      intro x; unfold GivEnergyResponse.register; rw [hr]; rfl
    unfold metricAt at h
    split at h
    · simp at h
    · exact metricDef_empty_store _ _ _ hst _ h

/-- Witness for C3: a concrete 34-byte error payload with raw function-code
byte 0x83, which decodes to `error = true`, `function_code = 3`. -/
theorem error_response_decodes_without_registers_witness :
    decodePayload ([65, 66, 49, 50, 51, 52, 71, 53, 54, 55] ++
        [0, 0, 0, 0, 0, 0, 0, 8] ++ [0x32] ++ [0x83] ++
        [83, 65, 50, 49, 49, 52, 71, 48, 54, 55] ++ [0, 0] ++ [0, 60] ++
        [0x12, 0x34] ++ []) =
      some ⟨String.mk ([65, 66, 49, 50, 51, 52, 71, 53, 54, 55].map Char.ofNat),
            beVal [0, 0, 0, 0, 0, 0, 0, 8], 0x32, 0x83 &&& 0x7F, true,
            String.mk ([83, 65, 50, 49, 49, 52, 71, 48, 54, 55].map Char.ofNat),
            beVal [0, 0], beVal [0, 60], [], beVal [0x12, 0x34]⟩ ∧
    (∀ r : GivEnergyResponse, r.registers = [] →
      ∀ table a ms, metricAt table a r.register = .ok ms → ms = []) :=
  error_response_decodes_without_registers
    [65, 66, 49, 50, 51, 52, 71, 53, 54, 55] [0, 0, 0, 0, 0, 0, 0, 8]
    [83, 65, 50, 49, 49, 52, 71, 48, 54, 55] [0, 0] [0, 60] [0x12, 0x34] []
    0x32 0x83 (by decide) (by decide) (by decide) (by decide) (by decide)
    (by decide) (by decide) (by decide) (by decide)

/-- **C2.** For every valid `ReadRequest`, unpacking the first 8 bytes of
`encode(request)` with the strict big-endian header format recovers exactly
the header fields that were written: transaction id 0x5959, protocol id 1,
length = payload byte length + 2, unit id 1, function id 2 — and the payload
is the fixed 26 bytes, so the length field is 28. -/
theorem encode_header_roundtrip (fc br rc : ℕ) (h : ValidRequest fc br rc) :
    unpackHeader ((encode fc br rc).take 8) =
      some (0x5959, 1, ((encode fc br rc).drop 8).length + 2, 1, 2) ∧
    ((encode fc br rc).drop 8).length = 26 := by
  have h8 : (packHeader 0x5959 1 28 1 2).length = 8 := rfl
  rw [encode_eq_header_append, List.take_left' h8, List.drop_left' h8]
  exact ⟨rfl, rfl⟩

/-- Witness for C2 at the concrete request `(3, 0, 60)`. -/
theorem encode_header_roundtrip_witness :
    ValidRequest 3 0 60 ∧
      (unpackHeader ((encode 3 0 60).take 8) =
          some (0x5959, 1, ((encode 3 0 60).drop 8).length + 2, 1, 2) ∧
        ((encode 3 0 60).drop 8).length = 26) :=
  ⟨by decide, encode_header_roundtrip 3 0 60 (by decide)⟩

/-- **C4** (code-bug evidence).  On two registers holding `0x4142` and
`0x3132`, the `ASCII` branch's per-register decoding does produce the
2-character big-endian ASCII strings "AB" and "12" — but the loop in
`register.py` lines 130-133 never appends them to the accumulator `v`, which
stays `[]`, so the emitted metric's string value is `''.join([]) = ""` rather
than the concatenation "AB12" the spec states. -/
theorem ascii_metric_value_is_discarded :
    asciiParts 0 (fun a => if a = 0 then some 0x4142 else if a = 1 then some 0x3132 else none)
        [0, 1] = .ok ["AB", "12"] ∧
    metricDef { name := some "serial_number", type := some Encoding.ASCII,
                more := some (.addrs [1]) } 0
        (fun a => if a = 0 then some 0x4142 else if a = 1 then some 0x3132 else none) =
      .ok [⟨"serial_number", .str "", "", "guage"⟩] := by
  constructor
  · rfl
  · rfl

/-- **C5.** For a register definition with encoding `UINT32_HIGH` (and a name,
not a continuation or unknown marker), over a store holding both the primary
and the following address: when the `more` field equals `address+1` the
conversion emits one metric valued `((v <<< 16) ||| w)` divided by the scale
divisor; when `more` is absent it fails with the missing-companion
`RuntimeError`, and when `more` is anything other than `address+1` it fails
with the mismatched-companion `RuntimeError`. -/
theorem uint32_high_companion_check (rd : RegDef) (a v w : ℕ) (nm : String)
    (store : ℕ → Option ℕ)
    (hc : rd.cont = none) (hu : rd.unknown = none) (hn : rd.name = some nm)
    (ht : rd.type = some Encoding.UINT32_HIGH)
    (hv : store a = some v) (hw : store (a + 1) = some w) :
    (rd.more = some (.addr (a + 1)) →
      metricDef rd a store =
        .ok [⟨nm, .num (scaleValue ((v <<< 16) ||| w) (rd.scaling.getD Scaling.UNIT)),
              (rd.unit.getD MetricUnit.SCALAR).value, rd.prometheus.getD "guage"⟩]) ∧
    (rd.more = none → metricDef rd a store = .error (.u32MissingMore a)) ∧
    (∀ m, rd.more = some m → m ≠ .addr (a + 1) →
      metricDef rd a store = .error (.u32MismatchMore a)) := by
  refine ⟨fun hm => ?_, fun hm => ?_, fun m hm hne => ?_⟩
  · unfold metricDef
    simp [hc, hu, hn, ht, hv, hw, hm]
  · unfold metricDef
    simp [hc, hu, hn, ht, hv, hm]
  · unfold metricDef
    rcases m with b | l
    · have hb : b ≠ a + 1 := fun hba => hne (by rw [hba])
      simp [hc, hu, hn, ht, hv, hm, hb]
    · simp [hc, hu, hn, ht, hv, hm]

/-- Witness for C5 at the shape of input register 6
(`battery_throughput_total`): companion 7 = 6+1, raw halves 2 and 5. -/
theorem uint32_high_companion_check_witness :
    metricDef { name := some "battery_throughput_total", prometheus := some "counter",
                type := some Encoding.UINT32_HIGH, scaling := some Scaling.DECI,
                unit := some MetricUnit.ENERGY_KWH, more := some (.addr 7) } 6
        (fun x => if x = 6 then some 2 else if x = 7 then some 5 else none) =
      .ok [⟨"battery_throughput_total",
            .num (scaleValue ((((2 : ℕ) <<< 16) ||| 5 : ℕ)) Scaling.DECI),
            "kwh", "counter"⟩] :=
  (uint32_high_companion_check
    { name := some "battery_throughput_total", prometheus := some "counter",
      type := some Encoding.UINT32_HIGH, scaling := some Scaling.DECI,
      unit := some MetricUnit.ENERGY_KWH, more := some (.addr 7) } 6 2 5
    "battery_throughput_total"
    (fun x => if x = 6 then some 2 else if x = 7 then some 5 else none)
    rfl rfl rfl rfl (by decide) (by decide)).1 rfl

/-- **C6.** For a register definition with encoding `BOOL` (named, not a
continuation or unknown marker): conversion fails with the bad-boolean
`RuntimeError` exactly when the raw value is neither `0` nor the definition's
`true_value` (default 1); otherwise it emits one metric normalised to 0 or 1.
In particular the shipped `usb_inserted` input register 115, whose
`true_value` is 8, converts raw value 8 to the metric value 1. -/
theorem bool_encoding_check (rd : RegDef) (a v : ℕ) (nm : String)
    (store : ℕ → Option ℕ)
    (hc : rd.cont = none) (hu : rd.unknown = none) (hn : rd.name = some nm)
    (ht : rd.type = some Encoding.BOOL) (hv : store a = some v) :
    (v = 0 ∨ v = rd.true_value.getD 1 →
      metricDef rd a store =
        .ok [⟨nm, .num (if v = rd.true_value.getD 1 then 1 else 0),
              (rd.unit.getD MetricUnit.SCALAR).value, rd.prometheus.getD "guage"⟩]) ∧
    (¬(v = 0 ∨ v = rd.true_value.getD 1) →
      metricDef rd a store = .error (.boolBadValue a v)) ∧
    metricAt inputRegisterDefinition 115 (fun x => if x = 115 then some 8 else none) =
      .ok [⟨"usb_inserted", .num 1, "", "guage"⟩] := by
  refine ⟨fun hok => ?_, fun hbad => ?_, ?_⟩
  · unfold metricDef
    rcases hok with h0 | htv
    · by_cases htv' : v = rd.true_value.getD 1
      · simp [hc, hu, hn, ht, hv, htv']
      · simp [hc, hu, hn, ht, hv, h0, htv']
    · simp [hc, hu, hn, ht, hv, htv]
  · unfold metricDef
    push_neg at hbad
    simp [hc, hu, hn, ht, hv, hbad.1, hbad.2]
  · rfl

/-- Witness for C6: `true_value = 8`, raw value 8 normalises to 1. -/
theorem bool_encoding_check_witness :
    metricDef { name := some "usb_inserted", type := some Encoding.BOOL,
                true_value := some 8 } 115 (fun x => if x = 115 then some 8 else none) =
      .ok [⟨"usb_inserted", .num ((1 : ℕ) : ℚ), "", "guage"⟩] :=
  (bool_encoding_check
    { name := some "usb_inserted", type := some Encoding.BOOL, true_value := some 8 }
    115 8 "usb_inserted" (fun x => if x = 115 then some 8 else none)
    rfl rfl rfl rfl (by decide)).1 (Or.inr rfl)

/-- On a stream with no chunks left (the peer closed the connection), every
`recv` returns the empty byte string, the accumulated payload never grows,
and the receive loop runs forever: whatever the iteration bound, it produces
no result — and in particular it raises nothing. -/
theorem recvLoop_nil_eq_none (fuel size : ℕ) (payload : List ℕ)
    (h : payload.length < size) :
    recvLoop fuel [] size payload = none := by
  induction fuel with
  | zero => rfl
  | succ fuel ih =>
    unfold recvLoop
    rw [if_pos h]
    simpa [recvChunk] using ih

/-- **C7** (amended).  When the stream closes before the expected payload
byte count has been received, the receive loop of `_transaction` never
terminates: each `recv` returns zero bytes, the loop makes no progress, and
no result — in particular no `ConnectionError` — is ever produced. -/
theorem transaction_starves_on_early_close (fuel size : ℕ) (payload : List ℕ)
    (h : payload.length < size) :
    recvLoop fuel [] size payload = none :=
  recvLoop_nil_eq_none fuel size payload h

/-- Witness for the amended C7: 26 bytes expected, nothing received, closed
stream, 1000 iterations. -/
theorem transaction_starves_on_early_close_witness :
    ([] : List ℕ).length < 26 ∧ recvLoop 1000 [] 26 [] = none :=
  ⟨by decide, transaction_starves_on_early_close 1000 26 [] (by decide)⟩

/-- **C7** (counterexample to the claim as stated).  A transaction whose
stream closes with 26 payload bytes expected and none delivered does not fail
with `ConnectionError`: the receive loop yields no outcome at all — shown
after 1000 iterations, and at every iteration bound (the loop body contains
no operation that raises on an orderly close, where `recv` returns `b''`). -/
theorem closed_stream_yields_no_error :
    recvLoop 1000 [] 26 [] = none ∧
      ∀ fuel, recvLoop fuel [] 26 [] = none :=
  ⟨recvLoop_nil_eq_none 1000 26 [] (by decide),
   fun fuel => recvLoop_nil_eq_none fuel 26 [] (by decide)⟩

/-! ### Stable sorting of metrics -/

theorem mem_insertMetric {z x : Metric} {l : List Metric} :
    z ∈ insertMetric x l ↔ z = x ∨ z ∈ l := by
  induction l with
  | nil => simp [insertMetric]
  | cons y ys ih =>
    rw [insertMetric]
    by_cases hxy : x.name ≤ y.name
    · rw [if_pos hxy]
      simp only [List.mem_cons]
    · rw [if_neg hxy]
      simp only [List.mem_cons, ih]
      tauto

/-- Inserting into a name-sorted list keeps it name-sorted. -/
theorem pairwise_insertMetric (x : Metric) (l : List Metric)
    (h : l.Pairwise (fun a b => a.name ≤ b.name)) :
    (insertMetric x l).Pairwise (fun a b => a.name ≤ b.name) := by
  induction l with
  | nil => simp [insertMetric]
  | cons y ys ih =>
    rw [insertMetric]
    have h' := List.pairwise_cons.mp h
    by_cases hxy : x.name ≤ y.name
    · rw [if_pos hxy]
      refine List.Pairwise.cons ?_ h
      intro z hz
      rcases List.mem_cons.mp hz with rfl | hz'
      · exact hxy
      · exact le_trans hxy (h'.1 z hz')
    · rw [if_neg hxy]
      refine List.Pairwise.cons ?_ (ih h'.2)
      intro z hz
      rcases mem_insertMetric.mp hz with rfl | hz'
      · exact le_of_not_le hxy
      · exact h'.1 z hz'

/-- The sorted metric list is name-sorted. -/
theorem pairwise_sortMetrics (l : List Metric) :
    (sortMetrics l).Pairwise (fun a b => a.name ≤ b.name) := by
  induction l with
  | nil => exact List.Pairwise.nil
  | cons x xs ih => exact pairwise_insertMetric x (sortMetrics xs) ih

/-- Elements skipped by a stable insertion have strictly smaller names, so
filtering for one name commutes with insertion. -/
theorem filter_insertMetric (x : Metric) (l : List Metric) (nm : String) :
    (insertMetric x l).filter (fun m => m.name == nm) =
      if x.name == nm then x :: l.filter (fun m => m.name == nm)
      else l.filter (fun m => m.name == nm) := by
  induction l with
  | nil => simp [insertMetric, List.filter_cons]
  | cons y ys ih =>
    rw [insertMetric]
    by_cases hxy : x.name ≤ y.name
    · rw [if_pos hxy]
      simp only [List.filter_cons]
    · rw [if_neg hxy]
      by_cases hx : x.name = nm
      · have hy : (y.name == nm) = false := by
          refine beq_eq_false_iff_ne.mpr ?_
          rw [← hx]
          exact ne_of_lt (lt_of_not_le hxy)
        simp [List.filter_cons, hy, ih, hx]
      · have hx' : (x.name == nm) = false := beq_eq_false_iff_ne.mpr hx
        simp [List.filter_cons, ih, hx']

/-- Stability: sorting preserves the subsequence of metrics bearing any given
name. -/
theorem filter_sortMetrics (l : List Metric) (nm : String) :
    (sortMetrics l).filter (fun m => m.name == nm) =
      l.filter (fun m => m.name == nm) := by
  induction l with
  | nil => rfl
  | cons x xs ih =>
    rw [sortMetrics, filter_insertMetric, List.filter_cons, ih]

/-- **C8.**  The conversion-and-sort pipeline is deterministic — equal
register dumps give equal metric sequences — and `sortMetrics` puts the
emitted metrics in non-decreasing name order while preserving the original
emission order of equal-named metrics (stability, stated as: filtering the
sorted sequence for any one name gives exactly the filtered original
sequence). -/
theorem conversion_pipeline_deterministic_and_stably_sorted
    (table : List (ℕ × RegDef)) (base count : ℕ) (store store' : ℕ → Option ℕ)
    (ms : List Metric)
    (hagree : ∀ x, store x = store' x)
    (h : convertBlock table base count store = .ok ms) :
    convertBlock table base count store' = .ok ms ∧
    (sortMetrics ms).Pairwise (fun a b => a.name ≤ b.name) ∧
    ∀ nm, (sortMetrics ms).filter (fun m => m.name == nm) =
      ms.filter (fun m => m.name == nm) := by
  have hs : store = store' := funext hagree
  subst hs
  exact ⟨h, pairwise_sortMetrics ms, fun nm => filter_sortMetrics ms nm⟩

/-- Witness for C8: the first two input registers over a dump holding 7
everywhere. -/
theorem conversion_pipeline_deterministic_and_stably_sorted_witness :
    convertBlock inputRegisterDefinition 0 2 (fun _ => some 7) =
      .ok [⟨"inverter_status", .num (scaleValue ((7 : ℕ) : ℚ) Scaling.UNIT), "", "guage"⟩,
           ⟨"pv1", .num (scaleValue ((7 : ℕ) : ℚ) Scaling.DECI), "volts", "guage"⟩] ∧
    (sortMetrics
        [⟨"inverter_status", .num (scaleValue ((7 : ℕ) : ℚ) Scaling.UNIT), "", "guage"⟩,
         ⟨"pv1", .num (scaleValue ((7 : ℕ) : ℚ) Scaling.DECI), "volts", "guage"⟩]).Pairwise
      (fun a b => a.name ≤ b.name) ∧
    ∀ nm,
      (sortMetrics
          [⟨"inverter_status", .num (scaleValue ((7 : ℕ) : ℚ) Scaling.UNIT), "", "guage"⟩,
           ⟨"pv1", .num (scaleValue ((7 : ℕ) : ℚ) Scaling.DECI), "volts", "guage"⟩]).filter
        (fun m => m.name == nm) =
      ([⟨"inverter_status", .num (scaleValue ((7 : ℕ) : ℚ) Scaling.UNIT), "", "guage"⟩,
        ⟨"pv1", .num (scaleValue ((7 : ℕ) : ℚ) Scaling.DECI), "volts", "guage"⟩] :
          List Metric).filter (fun m => m.name == nm) :=
  conversion_pipeline_deterministic_and_stably_sorted
    inputRegisterDefinition 0 2 (fun _ => some 7) (fun _ => some 7)
    [⟨"inverter_status", .num (scaleValue ((7 : ℕ) : ℚ) Scaling.UNIT), "", "guage"⟩,
     ⟨"pv1", .num (scaleValue ((7 : ℕ) : ℚ) Scaling.DECI), "volts", "guage"⟩]
    (fun _ => rfl) rfl

/-! ### Companion consistency of the shipped tables -/

/-- A table entry found by address lookup is an entry of the table. -/
theorem lookupRD_mem {table : List (ℕ × RegDef)} {a : ℕ} {rd : RegDef}
    (h : lookupRD table a = some rd) : (a, rd) ∈ table := by
  unfold lookupRD at h
  cases hf : table.find? (fun p => p.1 = a) with
  | none => rw [hf] at h; simp at h
  | some p =>
    rw [hf] at h
    simp only [Option.map_some', Option.some.injEq] at h
    have hmem := List.mem_of_find?_eq_some hf
    have hp : p.1 = a := by simpa using List.find?_some hf
    obtain ⟨p1, p2⟩ := p
    cases hp
    cases h
    exact hmem

/-- Every primary (non-continuation, non-unknown) `UINT32_HIGH` entry of the
table has `more = address + 1` and the entry at that companion address is
marked as a continuation. -/
def u32CompanionOK (table : List (ℕ × RegDef)) : Bool :=
  table.all fun p =>
    !(p.2.cont.isNone && p.2.unknown.isNone && (p.2.type == some Encoding.UINT32_HIGH)) ||
      ((p.2.more == some (.addr (p.1 + 1))) &&
        match lookupRD table (p.1 + 1) with
        | some rd2 => rd2.cont.isSome
        | none => false)

theorem u32CompanionOK_spec {table : List (ℕ × RegDef)}
    (hok : u32CompanionOK table = true) {a : ℕ} {rd : RegDef}
    (h : lookupRD table a = some rd)
    (hc : rd.cont = none) (hu : rd.unknown = none)
    (ht : rd.type = some Encoding.UINT32_HIGH) :
    rd.more = some (.addr (a + 1)) ∧
      ∃ rd2, lookupRD table (a + 1) = some rd2 ∧ rd2.cont.isSome := by
  have hall := (List.all_eq_true.mp hok) (a, rd) (lookupRD_mem h)
  simp only [hc, hu, ht, Option.isNone_none, Bool.and_self, beq_self_eq_true,
    Bool.not_true, Bool.false_or, Bool.and_eq_true, beq_iff_eq] at hall
  obtain ⟨h1, h2⟩ := hall
  refine ⟨h1, ?_⟩
  cases hl : lookupRD table (a + 1) with
  | none => rw [hl] at h2; simp at h2
  | some rd2 => rw [hl] at h2; exact ⟨rd2, rfl, h2⟩

/-- `asciiPart` only raises store, overflow or non-ASCII errors. -/
theorem asciiPart_not_u32 {a : ℕ} {store : ℕ → Option ℕ} {p : ℕ} {e : RegErr}
    (h : asciiPart a store p = .error e) :
    ∀ b, e ≠ .u32MissingMore b ∧ e ≠ .u32MismatchMore b := by
  unfold asciiPart at h
  split at h
  · simp only [Except.error.injEq] at h
    subst h
    simp
  · split_ifs at h with h1 h2
    all_goals
      (simp only [Except.error.injEq] at h
       subst h
       simp)

/-- `asciiParts` only raises store, overflow or non-ASCII errors. -/
theorem asciiParts_not_u32 {a : ℕ} {store : ℕ → Option ℕ} {ps : List ℕ} {e : RegErr}
    (h : asciiParts a store ps = .error e) :
    ∀ b, e ≠ .u32MissingMore b ∧ e ≠ .u32MismatchMore b := by
  induction ps generalizing e with
  | nil => simp [asciiParts] at h
  | cons p ps ih =>
    rw [asciiParts] at h
    cases hp : asciiPart a store p with
    | error e' =>
      rw [hp] at h
      have h' : (Except.error e' : Except RegErr (List String)) = Except.error e := h
      simp only [Except.error.injEq] at h'
      exact h' ▸ asciiPart_not_u32 hp
    | ok s =>
      rw [hp] at h
      cases hps : asciiParts a store ps with
      | error e2 =>
        rw [hps] at h
        have h' : (Except.error e2 : Except RegErr (List String)) = Except.error e := h
        simp only [Except.error.injEq] at h'
        exact h' ▸ ih hps
      | ok rest =>
        rw [hps] at h
        have h' : (Except.ok (s :: rest) : Except RegErr (List String)) = Except.error e := h
        simp at h'

/-- Inversion: the only way `metricDef` can fail with a missing- or
mismatched-companion error is a primary `UINT32_HIGH` definition whose
`more` field is not `address + 1`. -/
theorem metricDef_u32_error {rd : RegDef} {a : ℕ} {store : ℕ → Option ℕ} {e : RegErr}
    (h : metricDef rd a store = .error e)
    (he : e = .u32MissingMore a ∨ e = .u32MismatchMore a) :
    rd.cont = none ∧ rd.unknown = none ∧ rd.type = some Encoding.UINT32_HIGH ∧
      rd.more ≠ some (.addr (a + 1)) := by
  unfold metricDef at h
  split at h
  case isTrue hcu => exact absurd h (by simp)
  case isFalse hcu =>
    have hc : rd.cont = none := by
      cases hco : rd.cont
      · rfl
      · exact absurd (Or.inl (by simp [hco])) hcu
    have hu : rd.unknown = none := by
      cases huo : rd.unknown
      · rfl
      · exact absurd (Or.inr (by simp [huo])) hcu
    refine ⟨hc, hu, ?_⟩
    split at h
    -- rd.name = none
    · rcases he with rfl | rfl <;> simp_all
    -- rd.name = some nm
    split at h
    -- store a = none
    · rcases he with rfl | rfl <;> simp_all
    -- store a = some v
    split at h
    -- BOOL
    · split at h
      · exact absurd h (by simp)
      · rcases he with rfl | rfl <;> simp_all
    -- BITFIELD
    · exact absurd h (by simp)
    -- HEX
    · exact absurd h (by simp)
    -- UINT8
    · exact absurd h (by simp)
    -- DUINT8
    · split at h
      · rcases he with rfl | rfl <;> simp_all
      · exact absurd h (by simp)
    -- UINT16
    · exact absurd h (by simp)
    -- INT16
    · exact absurd h (by simp)
    -- UINT32_HIGH
    · rename_i heq
      have hty : rd.type = some Encoding.UINT32_HIGH := by
        rcases hto : rd.type with _ | t
        · rw [hto] at heq; simp at heq
        · rw [hto] at heq; simp only [Option.getD_some] at heq; rw [heq]
      refine ⟨hty, ?_⟩
      split at h
      -- rd.more = none
      · rename_i hm
        rw [hm]; simp
      -- rd.more = some (.addrs _)
      · rename_i ls hm
        rw [hm]; simp
      -- rd.more = some (.addr m)
      · rename_i m hm
        split at h
        -- m ≠ a + 1
        · rename_i hne
          rw [hm]
          simp only [ne_eq, Option.some.injEq, MoreField.addr.injEq]
          exact fun hmm => hne hmm
        -- m = a + 1
        · split at h
          · rcases he with rfl | rfl <;> simp_all
          · exact absurd h (by simp)
    -- UINT32_LOW
    · rcases he with rfl | rfl <;> simp_all
    -- ASCII
    · split at h
      -- rd.more = none
      · rcases he with rfl | rfl <;> simp_all
      -- rd.more = some (.addr _)
      · rcases he with rfl | rfl <;> simp_all
      -- rd.more = some (.addrs parts)
      · split at h
        · rename_i e2 hps
          have h' : e2 = e := by simpa using h
          have hsh := asciiParts_not_u32 hps a
          rcases he with rfl | rfl <;> simp_all
        · exact absurd h (by simp)
    -- TIME
    · exact absurd h (by simp)
    -- POWER_FACTOR
    · exact absurd h (by simp)

/-- **C9.**  In both shipped register definition tables every primary entry
with encoding `UINT32_HIGH` has its `more` field present and equal to its own
address plus one, and the entry at that companion address is marked as a
continuation; consequently, under table-driven conversion the
missing-companion and mismatched-companion `RuntimeError` branches can never
fire, for any address and any register store. -/
theorem u32_companions_valid_and_errors_unreachable :
    u32CompanionOK holdingRegisterDefinition = true ∧
    u32CompanionOK inputRegisterDefinition = true ∧
    ∀ table, table = holdingRegisterDefinition ∨ table = inputRegisterDefinition →
      ∀ a (store : ℕ → Option ℕ) e, metricAt table a store = .error e →
        e ≠ .u32MissingMore a ∧ e ≠ .u32MismatchMore a := by
  have hok1 : u32CompanionOK holdingRegisterDefinition = true := by decide
  have hok2 : u32CompanionOK inputRegisterDefinition = true := by decide
  refine ⟨hok1, hok2, ?_⟩
  intro table htab a store e h
  have key : ∀ he : e = .u32MissingMore a ∨ e = .u32MismatchMore a, False := by
    intro he
    unfold metricAt at h
    cases hl : lookupRD table a with
    | none =>
      rw [hl] at h
      rcases he with rfl | rfl <;> simp_all
    | some rd =>
      rw [hl] at h
      obtain ⟨hc, hu, ht, hm⟩ := metricDef_u32_error h he
      rcases htab with rfl | rfl
      · exact hm (u32CompanionOK_spec hok1 hl hc hu ht).1
      · exact hm (u32CompanionOK_spec hok2 hl hc hu ht).1
  exact ⟨fun hx => key (Or.inl hx), fun hx => key (Or.inr hx)⟩

/-! ### Default-encoding conversion -/

/-- Every entry of the table that takes the default encoding and scale (no
`cont`, `unknown`, `type` or `scaling` key) also has no `prometheus` key, so
its prometheus kind defaults to `"guage"`. -/
def defaultEntriesPromFree (table : List (ℕ × RegDef)) : Bool :=
  table.all fun p =>
    p.2.cont.isSome || p.2.unknown.isSome || p.2.type.isSome || p.2.scaling.isSome ||
      p.2.prometheus.isNone

theorem defaultEntriesPromFree_spec {table : List (ℕ × RegDef)}
    (hok : defaultEntriesPromFree table = true) {a : ℕ} {rd : RegDef}
    (h : lookupRD table a = some rd)
    (hc : rd.cont = none) (hu : rd.unknown = none)
    (ht : rd.type = none) (hs : rd.scaling = none) :
    rd.prometheus = none := by
  have hall := (List.all_eq_true.mp hok) (a, rd) (lookupRD_mem h)
  simp only [hc, hu, ht, hs, Option.isSome_none, Bool.false_or,
    Option.isNone_iff_eq_none] at hall
  exact hall

/-- **C10** (counterexample to the claim as stated).  Holding register 26
(`p_grid_port_max_output`) specifies no encoding kind and no scale divisor,
yet its definition carries `Unit.POWER_W`: the single metric emitted has unit
string `"w"`, not the `SCALAR` unit (the empty string) the claim asserts. -/
theorem default_encoding_unit_not_scalar :
    metricAt holdingRegisterDefinition 26 (fun x => if x = 26 then some 5 else none) =
      .ok [⟨"p_grid_port_max_output", .num (scaleValue ((5 : ℕ) : ℚ) Scaling.UNIT),
            "w", "guage"⟩] ∧
    "w" ≠ MetricUnit.SCALAR.value := by
  constructor
  · rfl
  · decide

/-- **C10** (amended).  For every register of the two shipped tables whose
definition is not a continuation or unknown marker and specifies no encoding
kind and no scale divisor, conversion treats it as `UINT16` with divisor 1:
it emits exactly one metric whose value is the raw 16-bit value divided by 1
(as an exact rational), carrying the definition's unit (`SCALAR`, the empty
string, when none is given) and prometheus kind `'guage'`. -/
theorem default_encoding_is_scaled_uint16
    (table : List (ℕ × RegDef))
    (htab : table = holdingRegisterDefinition ∨ table = inputRegisterDefinition)
    (a : ℕ) (rd : RegDef) (nm : String) (store : ℕ → Option ℕ) (v : ℕ)
    (hl : lookupRD table a = some rd)
    (hc : rd.cont = none) (hu : rd.unknown = none)
    (ht : rd.type = none) (hs : rd.scaling = none)
    (hn : rd.name = some nm) (hv : store a = some v) :
    metricAt table a store =
      .ok [⟨nm, .num ((v : ℚ) / 1), (rd.unit.getD MetricUnit.SCALAR).value, "guage"⟩] := by
  have hp : rd.prometheus = none := by
    rcases htab with rfl | rfl
    · exact defaultEntriesPromFree_spec (by decide) hl hc hu ht hs
    · exact defaultEntriesPromFree_spec (by decide) hl hc hu ht hs
  unfold metricAt
  rw [hl]
  unfold metricDef
  simp [hc, hu, hn, ht, hs, hv, hp, scaleValue, Scaling.UNIT]

/-- Witness for the amended C10 at holding register 26 with raw value 5. -/
theorem default_encoding_is_scaled_uint16_witness :
    metricAt holdingRegisterDefinition 26 (fun x => if x = 26 then some 5 else none) =
      .ok [⟨"p_grid_port_max_output", .num (((5 : ℕ) : ℚ) / 1),
            ((some MetricUnit.POWER_W).getD MetricUnit.SCALAR).value, "guage"⟩] :=
  default_encoding_is_scaled_uint16 holdingRegisterDefinition (Or.inl rfl)
    26 { name := some "p_grid_port_max_output", unit := some MetricUnit.POWER_W }
    "p_grid_port_max_output" (fun x => if x = 26 then some 5 else none) 5
    (by rfl) rfl rfl rfl rfl rfl (by decide)

end GivEnergy
